import Mathlib

/-!
Verification of the 2D articulated-figure kinematics core
(src/utils/kinematics.ts, src/constants.ts, src/App.tsx).

The embedding is shallow: JavaScript numbers are modelled as real numbers
(`ℝ`) wherever the computation stays finite; the IEEE special values
produced by the two-bone IK solver's divisions are modelled separately by
the `JSVal` type further below.  Angles are kept in degrees exactly as in
the source; `rad` converts to radians at the trigonometric call sites,
mirroring the `rad` helper of the source.
-/

set_option maxHeartbeats 1000000

/-- A 2D point/vector, as the `{x, y}` records of the source. -/
structure Vec2 where
  x : ℝ
  y : ℝ

/-- Sparse per-joint positional offsets (`pose.offsets`): a JS object with
string keys; an absent key is modelled as `none` and reads fall back to
`{x: 0, y: 0}` exactly as `pose.offsets?.[key] || {x:0,y:0}` does. -/
def Offsets : Type := String → Option Vec2

/-- Fallback read of an offsets map: `offsets[key] || {x:0, y:0}`. -/
def offsetGet (o : Offsets) (k : String) : Vec2 :=
  match o k with
  | some v => v
  | none => ⟨0, 0⟩

/-- The Pose record, fields exactly as in `DEFAULT_POSE` (src/constants.ts).
All numeric fields are reals; `offsets` is the sparse map. -/
structure Pose where
  root : Vec2
  rootRotation : ℝ
  hips : ℝ
  torso : ℝ
  neck : ℝ
  lShoulder : ℝ
  lBicepCorrective : ℝ
  lForearm : ℝ
  lWrist : ℝ
  rShoulder : ℝ
  rBicepCorrective : ℝ
  rForearm : ℝ
  rWrist : ℝ
  lThigh : ℝ
  lThighCorrective : ℝ
  lCalf : ℝ
  lAnkle : ℝ
  rThigh : ℝ
  rThighCorrective : ℝ
  rCalf : ℝ
  rAnkle : ℝ
  offsets : Offsets

-- ---------------------------------------------------------------------------
-- Constants (src/constants.ts)
-- ---------------------------------------------------------------------------

def HEAD_UNIT : ℝ := 55

def ANATOMY.HEAD : ℝ := 1.0 * HEAD_UNIT
def ANATOMY.NECK : ℝ := 0.5 * HEAD_UNIT
def ANATOMY.TORSO : ℝ := 4.5 * HEAD_UNIT
def ANATOMY.PELVIS : ℝ := 2.0 * HEAD_UNIT
def ANATOMY.UPPER_ARM : ℝ := 2.5 * HEAD_UNIT
def ANATOMY.LOWER_ARM : ℝ := 2.1 * HEAD_UNIT
def ANATOMY.HAND : ℝ := 0.8 * HEAD_UNIT
def ANATOMY.LEG_UPPER : ℝ := 3.25 * HEAD_UNIT
def ANATOMY.LEG_LOWER : ℝ := 3.25 * HEAD_UNIT
def ANATOMY.FOOT : ℝ := 1.0 * HEAD_UNIT
def ANATOMY.SHOULDER_WIDTH : ℝ := 2.2 * HEAD_UNIT
def ANATOMY.HIP_WIDTH : ℝ := 2.0 * HEAD_UNIT

def RIGGING.SHOULDER_INSET : ℝ := 5
def RIGGING.SHOULDER_LIFT : ℝ := 0
def RIGGING.CLAVICLE_EXTENSION : ℝ := 0.5 * HEAD_UNIT

def FLOOR_HEIGHT : ℝ := 467.5

/-- Factory default T-pose (`DEFAULT_POSE` in src/constants.ts). -/
def DEFAULT_POSE : Pose where
  root := ⟨0, 0⟩
  rootRotation := 0
  hips := 0
  torso := 180
  neck := 0
  lShoulder := 0
  lBicepCorrective := -12
  lForearm := 0
  lWrist := 0
  rShoulder := 0
  rBicepCorrective := 12
  rForearm := 0
  rWrist := 0
  lThigh := 0
  lThighCorrective := 5
  lCalf := 0
  lAnkle := 0
  rThigh := 0
  rThighCorrective := -5
  rCalf := 0
  rAnkle := 0
  offsets := fun _ => none

-- ---------------------------------------------------------------------------
-- Forward kinematics helpers (src/utils/kinematics.ts, lines 80-90)
-- ---------------------------------------------------------------------------

/-- Degree-to-radian conversion (`rad` in the source). -/
noncomputable def rad (deg : ℝ) : ℝ := deg * Real.pi / 180

/-- Rotation of `(x, y)` by `angleDeg` degrees (`rotateVec` in the source). -/
noncomputable def rotateVec (x y angleDeg : ℝ) : Vec2 :=
  let r := rad angleDeg
  let c := Real.cos r
  let s := Real.sin r
  ⟨x * c - y * s, x * s + y * c⟩

/-- Vector addition (`addVec` in the source). -/
def addVec (v1 v2 : Vec2) : Vec2 := ⟨v1.x + v2.x, v1.y + v2.y⟩

-- ---------------------------------------------------------------------------
-- Global angle of a named bone (src/utils/kinematics.ts, lines 93-122)
-- ---------------------------------------------------------------------------

/-- Global (visual) angle of a named bone, accumulated along the hierarchy
exactly as `getGlobalAngle` in the source.  The source's
`pose.rootRotation || 0` fallback is the identity on the (finite) reals the
model carries, since `0 || 0` is `0`. -/
def getGlobalAngle (pose : Pose) (part : String) : ℝ :=
  let root := pose.rootRotation
  let hips := root + pose.hips
  let torso := root + pose.torso
  match part with
  | "root" => root
  | "hips" => hips
  | "torso" => torso
  | "neck" => torso + pose.neck
  | "rThigh" => hips + pose.rThigh
  | "rCalf" => hips + pose.rThigh + pose.rCalf
  | "lThigh" => hips + pose.lThigh
  | "lCalf" => hips + pose.lThigh + pose.lCalf
  | "rShoulder" => torso + 90 + pose.rShoulder
  | "rForearm" => torso + 90 + pose.rShoulder + pose.rForearm
  | "lShoulder" => torso - 90 - pose.lShoulder
  | "lForearm" => torso - 90 - pose.lShoulder + pose.lForearm
  | _ => 0

/-- Local rotation needed to achieve a target global angle
(`solveCounterRotation` in the source, lines 125-162).  Note the active
`lForearm` case returns `(torso - 90 - pose.lShoulder) - targetGlobal`:
the corrected formula `targetGlobal - (torso - 90 - pose.lShoulder)`
appears only inside a comment of the source and is not executed. -/
def solveCounterRotation (pose : Pose) (part : String) (targetGlobal : ℝ) : ℝ :=
  let root := pose.rootRotation
  let hips := root + pose.hips
  let torso := root + pose.torso
  match part with
  | "hips" => targetGlobal - root
  | "torso" => targetGlobal - root
  | "neck" => targetGlobal - torso
  | "rThigh" => targetGlobal - hips
  | "rCalf" => targetGlobal - (hips + pose.rThigh)
  | "lThigh" => targetGlobal - hips
  | "lCalf" => targetGlobal - (hips + pose.lThigh)
  | "rShoulder" => targetGlobal - torso - 90
  | "rForearm" => targetGlobal - (torso + 90 + pose.rShoulder)
  | "lShoulder" => torso - 90 - targetGlobal
  | "lForearm" => (torso - 90 - pose.lShoulder) - targetGlobal
  | _ => 0

-- ---------------------------------------------------------------------------
-- Joint positions (src/utils/kinematics.ts, lines 164-260)
-- ---------------------------------------------------------------------------

/-- Result of one leg chain inside `getJointPositions`. -/
structure LegJoints where
  hip : Vec2
  knee : Vec2
  ankle : Vec2
  footTip : Vec2

/-- Result of one arm chain inside `getJointPositions`. -/
structure ArmJoints where
  shoulder : Vec2
  elbow : Vec2
  wrist : Vec2
  handTip : Vec2

/-- The 16 named joint positions returned by `getJointPositions`. -/
structure Joints where
  lHip : Vec2
  rHip : Vec2
  lKnee : Vec2
  rKnee : Vec2
  lAnkle : Vec2
  rAnkle : Vec2
  lFootTip : Vec2
  rFootTip : Vec2
  neckBase : Vec2
  headTop : Vec2
  lShoulder : Vec2
  rShoulder : Vec2
  lElbow : Vec2
  rElbow : Vec2
  lWrist : Vec2
  rWrist : Vec2
  lHandTip : Vec2
  rHandTip : Vec2

/-- The `getLegJoints` closure of the source (lines 172-196), with its
captured context (`pose`, `globalAnglePelvis`, `pelvisEnd`) passed
explicitly; `isRight` stands for `side === 'right'`. -/
noncomputable def getLegJoints (pose : Pose) (globalAnglePelvis : ℝ)
    (pelvisEnd : Vec2) (isRight : Bool) : LegJoints :=
  let thighAngle := if isRight then pose.rThigh else pose.lThigh
  let calfAngle := if isRight then pose.rCalf else pose.lCalf
  let ankleAngle := if isRight then pose.rAnkle else pose.lAnkle
  let hipOffsetX := if isRight then ANATOMY.HIP_WIDTH / 4 else -(ANATOMY.HIP_WIDTH / 4)
  let hipOffsetVec := rotateVec hipOffsetX 0 globalAnglePelvis
  let hipJoint := addVec pelvisEnd hipOffsetVec
  let angleThighGlobal := globalAnglePelvis + thighAngle
  let thighVec := rotateVec 0 ANATOMY.LEG_UPPER angleThighGlobal
  let kneeJoint := addVec hipJoint thighVec
  let angleCalfGlobal := angleThighGlobal + calfAngle
  let calfVec := rotateVec 0 ANATOMY.LEG_LOWER angleCalfGlobal
  let ankleJoint := addVec kneeJoint calfVec
  let footBaseAngle : ℝ := if isRight then -90 else 90
  let angleFootGlobal := angleCalfGlobal + footBaseAngle + ankleAngle
  let footVec := rotateVec 0 ANATOMY.FOOT angleFootGlobal
  let footTip := addVec ankleJoint footVec
  ⟨hipJoint, kneeJoint, ankleJoint, footTip⟩

/-- The `getArmJoints` closure of the source (lines 209-244), with its
captured context passed explicitly. -/
noncomputable def getArmJoints (pose : Pose) (globalAngleTorso : ℝ)
    (isRight : Bool) : ArmJoints :=
  let offsets := pose.offsets
  let shoulderAngle := if isRight then pose.rShoulder else pose.lShoulder
  let forearmAngle := if isRight then pose.rForearm else pose.lForearm
  let wristAngle := if isRight then pose.rWrist else pose.lWrist
  let halfWidth := ANATOMY.SHOULDER_WIDTH / 2 - RIGGING.SHOULDER_INSET +
    RIGGING.CLAVICLE_EXTENSION
  let sx := if isRight then -halfWidth else halfWidth
  let sy := RIGGING.SHOULDER_LIFT
  let boneOffset := offsetGet offsets (if isRight then "rShoulder" else "lShoulder")
  let effectiveSX := sx + boneOffset.x
  let effectiveSY := sy + boneOffset.y
  let shoulderOffsetVec := rotateVec effectiveSX effectiveSY globalAngleTorso
  let shoulderJoint := addVec pose.root shoulderOffsetVec
  let baseArmAngle : ℝ := if isRight then 90 else -90
  let effectiveShoulderAngle :=
    if isRight then baseArmAngle + shoulderAngle else baseArmAngle - shoulderAngle
  let globalAngleArm := globalAngleTorso + effectiveShoulderAngle
  let armVec := rotateVec 0 ANATOMY.UPPER_ARM globalAngleArm
  let elbowJoint := addVec shoulderJoint armVec
  let globalAngleForearm := globalAngleArm + forearmAngle
  let forearmVec := rotateVec 0 ANATOMY.LOWER_ARM globalAngleForearm
  let wristJoint := addVec elbowJoint forearmVec
  let globalAngleHand := globalAngleForearm + wristAngle
  let handVec := rotateVec 0 ANATOMY.HAND globalAngleHand
  let handTip := addVec wristJoint handVec
  ⟨shoulderJoint, elbowJoint, wristJoint, handTip⟩

/-- World positions of every joint (`getJointPositions` in the source). -/
noncomputable def getJointPositions (pose : Pose) : Joints :=
  let root := pose.root
  let rootRotation := pose.rootRotation
  let globalAnglePelvis := rootRotation + pose.hips
  let pelvisVec := rotateVec 0 ANATOMY.PELVIS globalAnglePelvis
  let pelvisEnd := addVec root pelvisVec
  let rightLeg := getLegJoints pose globalAnglePelvis pelvisEnd true
  let leftLeg := getLegJoints pose globalAnglePelvis pelvisEnd false
  let globalAngleTorso := rootRotation + pose.torso
  let torsoVec := rotateVec 0 ANATOMY.TORSO globalAngleTorso
  let neckBase := addVec root torsoVec
  let globalAngleNeck := globalAngleTorso + pose.neck
  let headVec := rotateVec 0 (ANATOMY.NECK + ANATOMY.HEAD) globalAngleNeck
  let headTop := addVec neckBase headVec
  let rightArm := getArmJoints pose globalAngleTorso true
  let leftArm := getArmJoints pose globalAngleTorso false
  { lHip := leftLeg.hip, rHip := rightLeg.hip
    lKnee := leftLeg.knee, rKnee := rightLeg.knee
    lAnkle := leftLeg.ankle, rAnkle := rightLeg.ankle
    lFootTip := leftLeg.footTip, rFootTip := rightLeg.footTip
    neckBase := neckBase, headTop := headTop
    lShoulder := leftArm.shoulder, rShoulder := rightArm.shoulder
    lElbow := leftArm.elbow, rElbow := rightArm.elbow
    lWrist := leftArm.wrist, rWrist := rightArm.wrist
    lHandTip := leftArm.handTip, rHandTip := rightArm.handTip }

-- ---------------------------------------------------------------------------
-- Grounding resolver (src/utils/kinematics.ts, lines 262-288)
-- ---------------------------------------------------------------------------

/-- Maximum Y among the four contact points (`Math.max(...contactPoints)` over
`[lFootTip.y, rFootTip.y, lAnkle.y, rAnkle.y]`), factored out of
`resolveFinalGrounding` for reuse in the statements below. -/
noncomputable def contactMaxY (pose : Pose) : ℝ :=
  let joints := getJointPositions pose
  max (max (max joints.lFootTip.y joints.rFootTip.y) joints.lAnkle.y) joints.rAnkle.y

/-- The grounding resolver, with the JS aliasing made explicit.  In the
source, `let finalPose = { ...pose }` copies only the top level, so
`finalPose.root` is the same object as `pose.root`; each
`finalPose.root.y -= …` therefore also updates the caller's pose.  The
first component is the returned pose; the second is the input pose as
observed after the call (same fields, but with the shared, possibly
updated `root`). -/
noncomputable def resolveFinalGroundingM (pose : Pose) (floorHeight magnetism : ℝ)
    (sitMode : Bool) (seatHeight : ℝ) : Pose × Pose :=
  let y0 := pose.root.y
  let joints := getJointPositions pose
  let y1 :=
    if sitMode then
      let lowestHipY := max joints.lHip.y joints.rHip.y
      let seatPenetration := lowestHipY - seatHeight
      let ya := if seatPenetration > 0 then y0 - seatPenetration else y0
      if magnetism > 0 ∧ seatPenetration < 0 ∧ |seatPenetration| < 100 then
        ya + |seatPenetration| * (magnetism * 0.5)
      else ya
    else y0
  let lowestPointY := contactMaxY { pose with root := ⟨pose.root.x, y1⟩ }
  let penetration := lowestPointY - floorHeight
  let y2 := if penetration > 0 then y1 - penetration else y1
  let y3 :=
    if sitMode = false ∧ magnetism > 0 ∧ penetration < 0 ∧ |penetration| < 100 then
      y2 + |penetration| * magnetism
    else y2
  let result : Pose := { pose with root := ⟨pose.root.x, y3⟩ }
  (result, { pose with root := result.root })

/-- The value returned to the caller by `resolveFinalGrounding`. -/
noncomputable def resolveFinalGrounding (pose : Pose) (floorHeight magnetism : ℝ)
    (sitMode : Bool) (seatHeight : ℝ) : Pose :=
  (resolveFinalGroundingM pose floorHeight magnetism sitMode seatHeight).1

-- ---------------------------------------------------------------------------
-- Limpness solver (src/utils/kinematics.ts, lines 296-333)
-- ---------------------------------------------------------------------------

/-- Truncation toward zero, as coerced by the JS `%` operator. -/
noncomputable def jsTrunc (r : ℝ) : ℝ := if 0 ≤ r then (⌊r⌋ : ℤ) else (⌈r⌉ : ℤ)

/-- The JS remainder operator `x % n` (sign follows the dividend). -/
noncomputable def jsRem (x n : ℝ) : ℝ := x - n * jsTrunc (x / n)

/-- Normalisation of an angle into `[-180, 180]` (`legCorrection` in the
source, lines 327-333); note `a % 360` is the JS truncating remainder. -/
noncomputable def legCorrection (angle : ℝ) : ℝ :=
  let a := jsRem angle 360
  let a := if a > 180 then a - 360 else a
  let a := if a < -180 then a + 360 else a
  a

/-- The limpness solver (`applyLimbLimpness` in the source). -/
noncomputable def applyLimbLimpness (pose : Pose) : Pose :=
  let rootRotation := pose.rootRotation
  let hips := pose.hips
  let torso := pose.torso
  let legGravity := -(rootRotation + hips)
  { pose with
      rThigh := legCorrection legGravity
      lThigh := legCorrection legGravity
      rCalf := 0
      lCalf := 0
      rAnkle := 0
      lAnkle := 0
      rShoulder := -90 - (rootRotation + torso)
      lShoulder := (rootRotation + torso) - 90
      rForearm := 0
      lForearm := 0
      rWrist := 0
      lWrist := 0 }

-- ---------------------------------------------------------------------------
-- Pose blender (src/utils/kinematics.ts, lines 6-44)
-- ---------------------------------------------------------------------------

/-- Linear interpolation (`lerp` in the source; `stop` is the source's
second parameter, a reserved word in Lean). -/
def lerp (start stop t : ℝ) : ℝ := start * (1 - t) + stop * t

/-- Interpolation between two full poses (`interpolatePose` in the source).
The scalar fields spell out the source's `Object.keys(poseA)` loop over the
fixed field set of `Pose`; the `offsets` map is built over the union of the
keys of either side, with absent entries read as `{x:0, y:0}`. -/
noncomputable def interpolatePose (poseA poseB : Pose) (t : ℝ) : Pose :=
  let clampedT := max 0 (min 1 t)
  { root := ⟨lerp poseA.root.x poseB.root.x clampedT,
             lerp poseA.root.y poseB.root.y clampedT⟩
    rootRotation := lerp poseA.rootRotation poseB.rootRotation clampedT
    hips := lerp poseA.hips poseB.hips clampedT
    torso := lerp poseA.torso poseB.torso clampedT
    neck := lerp poseA.neck poseB.neck clampedT
    lShoulder := lerp poseA.lShoulder poseB.lShoulder clampedT
    lBicepCorrective := lerp poseA.lBicepCorrective poseB.lBicepCorrective clampedT
    lForearm := lerp poseA.lForearm poseB.lForearm clampedT
    lWrist := lerp poseA.lWrist poseB.lWrist clampedT
    rShoulder := lerp poseA.rShoulder poseB.rShoulder clampedT
    rBicepCorrective := lerp poseA.rBicepCorrective poseB.rBicepCorrective clampedT
    rForearm := lerp poseA.rForearm poseB.rForearm clampedT
    rWrist := lerp poseA.rWrist poseB.rWrist clampedT
    lThigh := lerp poseA.lThigh poseB.lThigh clampedT
    lThighCorrective := lerp poseA.lThighCorrective poseB.lThighCorrective clampedT
    lCalf := lerp poseA.lCalf poseB.lCalf clampedT
    lAnkle := lerp poseA.lAnkle poseB.lAnkle clampedT
    rThigh := lerp poseA.rThigh poseB.rThigh clampedT
    rThighCorrective := lerp poseA.rThighCorrective poseB.rThighCorrective clampedT
    rCalf := lerp poseA.rCalf poseB.rCalf clampedT
    rAnkle := lerp poseA.rAnkle poseB.rAnkle clampedT
    offsets := fun key =>
      match poseA.offsets key, poseB.offsets key with
      | none, none => none
      | _, _ =>
        let offA := offsetGet poseA.offsets key
        let offB := offsetGet poseB.offsets key
        some ⟨lerp offA.x offB.x clampedT, lerp offA.y offB.y clampedT⟩ }

/-- Field-wise agreement of two poses over exactly the data the blender
claim speaks about: root, rootRotation, every scalar rotation field, and
the offsets map read with its `{0,0}` fallback. -/
def samePose (p q : Pose) : Prop :=
  p.root = q.root ∧ p.rootRotation = q.rootRotation ∧
  p.hips = q.hips ∧ p.torso = q.torso ∧ p.neck = q.neck ∧
  p.lShoulder = q.lShoulder ∧ p.lBicepCorrective = q.lBicepCorrective ∧
  p.lForearm = q.lForearm ∧ p.lWrist = q.lWrist ∧
  p.rShoulder = q.rShoulder ∧ p.rBicepCorrective = q.rBicepCorrective ∧
  p.rForearm = q.rForearm ∧ p.rWrist = q.rWrist ∧
  p.lThigh = q.lThigh ∧ p.lThighCorrective = q.lThighCorrective ∧
  p.lCalf = q.lCalf ∧ p.lAnkle = q.lAnkle ∧
  p.rThigh = q.rThigh ∧ p.rThighCorrective = q.rThighCorrective ∧
  p.rCalf = q.rCalf ∧ p.rAnkle = q.rAnkle ∧
  ∀ k, offsetGet p.offsets k = offsetGet q.offsets k

-- ---------------------------------------------------------------------------
-- Validator (src/App.tsx, lines 98-117)
-- ---------------------------------------------------------------------------

/-- A JS number as the validator sees it: `some x` is a finite double of
value `x`; `none` is any non-finite value (NaN or ±Infinity), for which
`Number.isFinite` returns false. -/
def JSNum : Type := Option ℝ

/-- Pose with possibly non-finite numeric fields, input of `validatePose`. -/
structure JPose where
  root : JSNum × JSNum
  rootRotation : JSNum
  hips : JSNum
  torso : JSNum
  neck : JSNum
  lShoulder : JSNum
  lBicepCorrective : JSNum
  lForearm : JSNum
  lWrist : JSNum
  rShoulder : JSNum
  rBicepCorrective : JSNum
  rForearm : JSNum
  rWrist : JSNum
  lThigh : JSNum
  lThighCorrective : JSNum
  lCalf : JSNum
  lAnkle : JSNum
  rThigh : JSNum
  rThighCorrective : JSNum
  rCalf : JSNum
  rAnkle : JSNum
  offsets : Offsets

/-- `DEFAULT_POSE` as seen by the validator (all fields finite). -/
def DEFAULT_POSE_J : JPose where
  root := (some 0, some 0)
  rootRotation := some 0
  hips := some 0
  torso := some 180
  neck := some 0
  lShoulder := some 0
  lBicepCorrective := some (-12)
  lForearm := some 0
  lWrist := some 0
  rShoulder := some 0
  rBicepCorrective := some 12
  rForearm := some 0
  rWrist := some 0
  lThigh := some 0
  lThighCorrective := some 5
  lCalf := some 0
  lAnkle := some 0
  rThigh := some 0
  rThighCorrective := some (-5)
  rCalf := some 0
  rAnkle := some 0
  offsets := fun _ => none

/-- One `check(v, k)` substitution for a flat numeric field: a non-finite
value is replaced with the default pose's value for that key. -/
def healField (v d : JSNum) : JSNum := if v.isSome then v else d

/-- The math guard (`validatePose` in src/App.tsx).  For the `root` key the
source calls `check(safe.root.x, 'root.x')`, whose substitution executes
`safe['root.x'] = DEFAULT_POSE['root.x']`: it sets the corrupted flag and
creates a stray top-level property `'root.x'`, but never changes the nested
`root` object, so `root.x`/`root.y` are left as they were.  All flat
numeric fields are substituted normally.  If nothing was non-finite the
original pose is returned (identity fast-path). -/
def validatePose (p : JPose) : JPose :=
  let corrupted :=
    !(p.root.1.isSome && p.root.2.isSome && p.rootRotation.isSome &&
      p.hips.isSome && p.torso.isSome && p.neck.isSome &&
      p.lShoulder.isSome && p.lBicepCorrective.isSome && p.lForearm.isSome &&
      p.lWrist.isSome && p.rShoulder.isSome && p.rBicepCorrective.isSome &&
      p.rForearm.isSome && p.rWrist.isSome && p.lThigh.isSome &&
      p.lThighCorrective.isSome && p.lCalf.isSome && p.lAnkle.isSome &&
      p.rThigh.isSome && p.rThighCorrective.isSome && p.rCalf.isSome &&
      p.rAnkle.isSome)
  let safe : JPose :=
    { p with
        rootRotation := healField p.rootRotation DEFAULT_POSE_J.rootRotation
        hips := healField p.hips DEFAULT_POSE_J.hips
        torso := healField p.torso DEFAULT_POSE_J.torso
        neck := healField p.neck DEFAULT_POSE_J.neck
        lShoulder := healField p.lShoulder DEFAULT_POSE_J.lShoulder
        lBicepCorrective := healField p.lBicepCorrective DEFAULT_POSE_J.lBicepCorrective
        lForearm := healField p.lForearm DEFAULT_POSE_J.lForearm
        lWrist := healField p.lWrist DEFAULT_POSE_J.lWrist
        rShoulder := healField p.rShoulder DEFAULT_POSE_J.rShoulder
        rBicepCorrective := healField p.rBicepCorrective DEFAULT_POSE_J.rBicepCorrective
        rForearm := healField p.rForearm DEFAULT_POSE_J.rForearm
        rWrist := healField p.rWrist DEFAULT_POSE_J.rWrist
        lThigh := healField p.lThigh DEFAULT_POSE_J.lThigh
        lThighCorrective := healField p.lThighCorrective DEFAULT_POSE_J.lThighCorrective
        lCalf := healField p.lCalf DEFAULT_POSE_J.lCalf
        lAnkle := healField p.lAnkle DEFAULT_POSE_J.lAnkle
        rThigh := healField p.rThigh DEFAULT_POSE_J.rThigh
        rThighCorrective := healField p.rThighCorrective DEFAULT_POSE_J.rThighCorrective
        rCalf := healField p.rCalf DEFAULT_POSE_J.rCalf
        rAnkle := healField p.rAnkle DEFAULT_POSE_J.rAnkle }
  if corrupted then safe else p

-- ---------------------------------------------------------------------------
-- Two-bone IK solver (src/utils/kinematics.ts, lines 335-380)
-- ---------------------------------------------------------------------------

/-- The two-argument arctangent `Math.atan2(y, x)`, i.e. the argument of the
complex number `x + y·i` (both agree on every branch, including
`atan2(0, 0) = 0`). -/
noncomputable def atan2 (y x : ℝ) : ℝ := Complex.arg ⟨x, y⟩

/-- Return record of the solver. -/
structure IKResult where
  thigh : ℝ
  calf : ℝ
  stretch : ℝ

/-- Distance from `hipPos` to `targetAnkle` (`dist` in the solver). -/
noncomputable def ikDist (hipPos targetAnkle : Vec2) : ℝ :=
  let dx := targetAnkle.x - hipPos.x
  let dy := targetAnkle.y - hipPos.y
  Real.sqrt (dx * dx + dy * dy)

/-- The clamped reach (`clampedDist` in the solver), factored out so the
theorems below can refer to it. -/
noncomputable def ikReach (hipPos targetAnkle : Vec2) (L1 L2 tension : ℝ) : ℝ :=
  let dist := ikDist hipPos targetAnkle
  let maxElasticity : ℝ := 0.1
  let elasticityFactor := (100 - tension) / 100
  let allowedStretch := elasticityFactor * maxElasticity
  let naturalReach := L1 + L2
  let maxReach := naturalReach * (1 + max allowedStretch 0.05)
  min dist maxReach

/-- Analytic two-bone solver (`solveTwoBoneIK` in the source), in exact real
arithmetic.  On inputs where both cosine denominators are nonzero this is
the source computation verbatim; the IEEE special-value behaviour of the
divisions is modelled separately by `solveTwoBoneIKF` below. -/
noncomputable def solveTwoBoneIK (rootRot hipsRot : ℝ) (hipPos targetAnkle : Vec2)
    (L1 L2 currentBendDir tension : ℝ) : IKResult :=
  let dx := targetAnkle.x - hipPos.x
  let dy := targetAnkle.y - hipPos.y
  let dist := ikDist hipPos targetAnkle
  let naturalReach := L1 + L2
  let clampedDist := ikReach hipPos targetAnkle L1 L2 tension
  let stretch := if dist > naturalReach then max 0 (clampedDist - naturalReach) else 0
  let reach := clampedDist
  let cosAlpha := (L1 * L1 + reach * reach - L2 * L2) / (2 * L1 * reach)
  let alpha := Real.arccos (max (-1) (min 1 cosAlpha))
  let vectorAngle := atan2 dy dx - Real.pi / 2
  let thighGlobalRad := vectorAngle - alpha * currentBendDir
  let cosC := (L1 * L1 + L2 * L2 - reach * reach) / (2 * L1 * L2)
  let angleC := Real.arccos (max (-1) (min 1 cosC))
  let calfLocalRad := (Real.pi - angleC) * currentBendDir
  let thighGlobalDeg := thighGlobalRad * 180 / Real.pi
  let calfLocalDeg := calfLocalRad * 180 / Real.pi
  let thighLocalDeg := thighGlobalDeg - rootRot - hipsRot
  ⟨thighLocalDeg, calfLocalDeg, stretch⟩

/-- Forward kinematics of the leg chain as the claim states it (and as
`getLegJoints` computes it, lines 182-188): knee = origin + L1·u(rootRot +
hipsRot + thigh), ankle = knee + L2·u(… + calf), with u the rotated unit
up-vector. -/
noncomputable def legForward (rootRot hipsRot : ℝ) (hipPos : Vec2)
    (thigh calf L1 L2 : ℝ) : Vec2 :=
  let angleThighGlobal := rootRot + hipsRot + thigh
  let knee := addVec hipPos (rotateVec 0 L1 angleThighGlobal)
  let angleCalfGlobal := angleThighGlobal + calf
  addVec knee (rotateVec 0 L2 angleCalfGlobal)

-- ---------------------------------------------------------------------------
-- IEEE special-value model of the solver (for the safety claim)
-- ---------------------------------------------------------------------------

/-- A JS double as relevant to the solver: a finite value, ±Infinity, or
NaN.  Finite arithmetic is idealised as exact. -/
inductive JSVal where
  | val : ℝ → JSVal
  | posInf : JSVal
  | negInf : JSVal
  | nan : JSVal

/-- Whether a JS double is a finite number (`Number.isFinite`). -/
def JSVal.isFin : JSVal → Bool
  | .val _ => true
  | _ => false

/-- JS division of finite operands: `0/0` is NaN, `x/0` for `x ≠ 0` is
±Infinity (the denominator is `+0`), otherwise exact. -/
noncomputable def jsDiv (num den : ℝ) : JSVal :=
  if den ≠ 0 then .val (num / den)
  else if num = 0 then .nan
  else if num > 0 then .posInf
  else .negInf

/-- `Math.min(c, v)` with a finite first argument: NaN propagates. -/
noncomputable def jsMin (c : ℝ) : JSVal → JSVal
  | .val x => .val (min c x)
  | .posInf => .val c
  | .negInf => .negInf
  | .nan => .nan

/-- `Math.max(c, v)` with a finite first argument: NaN propagates. -/
noncomputable def jsMax (c : ℝ) : JSVal → JSVal
  | .val x => .val (max c x)
  | .posInf => .posInf
  | .negInf => .val c
  | .nan => .nan

/-- `Math.acos`: defined on `[-1, 1]`, NaN elsewhere and on non-finite
input. -/
noncomputable def jsAcos : JSVal → JSVal
  | .val x => if -1 ≤ x ∧ x ≤ 1 then .val (Real.arccos x) else .nan
  | _ => .nan

/-- `a - v` for finite `a`. -/
noncomputable def jsSubL (a : ℝ) : JSVal → JSVal
  | .val x => .val (a - x)
  | .posInf => .negInf
  | .negInf => .posInf
  | .nan => .nan

/-- `v - r` for finite `r`. -/
noncomputable def jsSubR : JSVal → ℝ → JSVal
  | .val x, r => .val (x - r)
  | .posInf, _ => .posInf
  | .negInf, _ => .negInf
  | .nan, _ => .nan

/-- `v * r` for finite `r`: `±Infinity * 0` is NaN. -/
noncomputable def jsMulR : JSVal → ℝ → JSVal
  | .val x, r => .val (x * r)
  | .posInf, r => if r > 0 then .posInf else if r < 0 then .negInf else .nan
  | .negInf, r => if r > 0 then .negInf else if r < 0 then .posInf else .nan
  | .nan, _ => .nan

/-- `v / r` for finite `r`: `±Infinity / 0` keeps the sign (`+0`). -/
noncomputable def jsDivR : JSVal → ℝ → JSVal
  | .val x, r => jsDiv x r
  | .posInf, r => if r ≥ 0 then .posInf else .negInf
  | .negInf, r => if r ≥ 0 then .negInf else .posInf
  | .nan, _ => .nan

/-- The solver over the IEEE special-value model: the source computation of
`solveTwoBoneIK` with the two law-of-cosines divisions, the clamping, the
arccos and the subsequent arithmetic on the (possibly non-finite) angles
tracked through JS double semantics.  Every step before `cosAlpha` stays
finite and is shared with the real-valued embedding above.  Returns
(thigh, calf, stretch). -/
noncomputable def solveTwoBoneIKF (rootRot hipsRot : ℝ) (hipPos targetAnkle : Vec2)
    (L1 L2 currentBendDir tension : ℝ) : JSVal × JSVal × ℝ :=
  let dx := targetAnkle.x - hipPos.x
  let dy := targetAnkle.y - hipPos.y
  let dist := ikDist hipPos targetAnkle
  let naturalReach := L1 + L2
  let clampedDist := ikReach hipPos targetAnkle L1 L2 tension
  let stretch := if dist > naturalReach then max 0 (clampedDist - naturalReach) else 0
  let reach := clampedDist
  let cosAlpha := jsDiv (L1 * L1 + reach * reach - L2 * L2) (2 * L1 * reach)
  let alpha := jsAcos (jsMax (-1) (jsMin 1 cosAlpha))
  let vectorAngle := atan2 dy dx - Real.pi / 2
  let thighGlobalRad := jsSubL vectorAngle (jsMulR alpha currentBendDir)
  let cosC := jsDiv (L1 * L1 + L2 * L2 - reach * reach) (2 * L1 * L2)
  let angleC := jsAcos (jsMax (-1) (jsMin 1 cosC))
  let calfLocalRad := jsMulR (jsSubL Real.pi angleC) currentBendDir
  let thighGlobalDeg := jsDivR (jsMulR thighGlobalRad 180) Real.pi
  let calfLocalDeg := jsDivR (jsMulR calfLocalRad 180) Real.pi
  let thighLocalDeg := jsSubR (jsSubR thighGlobalDeg rootRot) hipsRot
  (thighLocalDeg, calfLocalDeg, stretch)

-- ---------------------------------------------------------------------------
-- Theorems
-- ---------------------------------------------------------------------------

/-- C1.  The counter-rotation round trip fails on the `lForearm` joint:
with the default pose (torso 180, lShoulder 0, rootRotation 0) and target
global angle 0, `solveCounterRotation` returns 90, and writing 90 into
`lForearm` yields a global angle of 180, not the requested 0.  (The round
trip the claim asserts holds for the other ten joints, but not this one.) -/
theorem solveCounterRotation_lForearm_roundtrip_fails :
    getGlobalAngle
      { DEFAULT_POSE with
          lForearm := solveCounterRotation DEFAULT_POSE "lForearm" 0 }
      "lForearm" = 180 ∧ (180 : ℝ) ≠ 0 := by
  constructor
  · simp only [getGlobalAngle, solveCounterRotation, DEFAULT_POSE]
    norm_num
  · norm_num

/-- C4.  The validator does not heal a non-finite `root.x`: on the default
pose with `root.x` corrupted (and every other field finite) it returns the
pose completely unchanged — the corrupted flag is set, but the substitution
for the root coordinates writes to the stray key `'root.x'` instead of the
nested field, so `root.x` keeps its non-finite value instead of receiving
the default pose's `0`. -/
theorem validatePose_root_nan_not_healed :
    validatePose { DEFAULT_POSE_J with root := (none, some 0) } =
      { DEFAULT_POSE_J with root := (none, some 0) } ∧
    ({ DEFAULT_POSE_J with root := (none, some 0) } : JPose).root.1 = none := by
  exact ⟨rfl, rfl⟩

/-- Helper: `legCorrection` shifts its argument by an integer multiple of
360 degrees. -/
theorem legCorrection_shift_int (x : ℝ) : ∃ k : ℤ, legCorrection x = x + 360 * k := by
  obtain ⟨m, hm⟩ : ∃ m : ℤ, jsTrunc (x / 360) = (m : ℝ) := by
    unfold jsTrunc
    by_cases h : 0 ≤ x / 360
    · exact ⟨⌊x / 360⌋, if_pos h⟩
    · exact ⟨⌈x / 360⌉, if_neg h⟩
  simp only [legCorrection, jsRem, hm]
  split_ifs
  · exact ⟨-m, by push_cast; ring⟩
  · exact ⟨-m - 1, by push_cast; ring⟩
  · exact ⟨-m + 1, by push_cast; ring⟩
  · exact ⟨-m, by push_cast; ring⟩

/-- Helper: `legCorrection` lands in `[-180, 180]`. -/
theorem legCorrection_range (x : ℝ) :
    -180 ≤ legCorrection x ∧ legCorrection x ≤ 180 := by
  have hq : x / 360 * 360 = x := by ring
  have hbound : -360 < jsRem x 360 ∧ jsRem x 360 < 360 := by
    rw [jsRem, jsTrunc]
    by_cases h : 0 ≤ x / 360
    · rw [if_pos h]
      have h1 := Int.floor_le (x / 360)
      have h2 := Int.lt_floor_add_one (x / 360)
      constructor <;> nlinarith
    · rw [if_neg h]
      have h1 := Int.le_ceil (x / 360)
      have h2 := Int.ceil_lt_add_one (x / 360)
      constructor <;> nlinarith
  simp only [legCorrection]
  split_ifs <;> constructor <;> linarith [hbound.1, hbound.2]

/-- C9 counterexample.  With `hips = 200` (all else default) the relaxed
pose's right thigh has global angle 360, not 0: `legCorrection` normalises
the gravity angle `-200` to `160`, so the accumulated global angle is a
full turn rather than zero. -/
theorem applyLimbLimpness_thigh_global_not_zero :
    getGlobalAngle (applyLimbLimpness { DEFAULT_POSE with hips := 200 }) "rThigh"
      = 360 ∧ (360 : ℝ) ≠ 0 := by
  have hceil : ⌈(-200 : ℝ) / 360⌉ = 0 := by
    rw [Int.ceil_eq_iff]
    norm_num
  have htr : jsTrunc ((-200 : ℝ) / 360) = 0 := by
    rw [jsTrunc, if_neg (by norm_num), hceil]
    norm_num
  have hrem : jsRem (-200 : ℝ) 360 = -200 := by
    rw [jsRem]
    have : (-200 : ℝ) / 360 = -200 / 360 := rfl
    rw [htr]
    norm_num
  have hlc : legCorrection (-200 : ℝ) = 160 := by
    rw [legCorrection, hrem]
    norm_num
  constructor
  · simp only [getGlobalAngle, applyLimbLimpness, DEFAULT_POSE]
    norm_num
    rw [hlc]
    norm_num
  · norm_num

/-- C9 (amended).  The relaxed pose's thigh global angles are integer
multiples of 360 degrees (exactly 0 only when the normalisation does not
wrap), its shoulder global angles are exactly 0, and all second/third limb
segments are set to exactly 0. -/
theorem applyLimbLimpness_gravity_align (pose : Pose) :
    (∃ k : ℤ, getGlobalAngle (applyLimbLimpness pose) "rThigh" = 360 * k) ∧
    (∃ k : ℤ, getGlobalAngle (applyLimbLimpness pose) "lThigh" = 360 * k) ∧
    getGlobalAngle (applyLimbLimpness pose) "rShoulder" = 0 ∧
    getGlobalAngle (applyLimbLimpness pose) "lShoulder" = 0 ∧
    (applyLimbLimpness pose).rCalf = 0 ∧ (applyLimbLimpness pose).lCalf = 0 ∧
    (applyLimbLimpness pose).rAnkle = 0 ∧ (applyLimbLimpness pose).lAnkle = 0 ∧
    (applyLimbLimpness pose).rForearm = 0 ∧ (applyLimbLimpness pose).lForearm = 0 ∧
    (applyLimbLimpness pose).rWrist = 0 ∧ (applyLimbLimpness pose).lWrist = 0 := by
  obtain ⟨k, hk⟩ := legCorrection_shift_int (-(pose.rootRotation + pose.hips))
  refine ⟨⟨k, ?_⟩, ⟨k, ?_⟩, ?_, ?_, rfl, rfl, rfl, rfl, rfl, rfl, rfl, rfl⟩ <;>
    simp only [getGlobalAngle, applyLimbLimpness] <;>
    [skip; skip; ring; ring]
  · rw [hk]; ring
  · rw [hk]; ring

/-- C10.  The thigh angles written by the limpness solver always lie in
`[-180, 180]`, however far `rootRotation + hips` is from that range. -/
theorem applyLimbLimpness_thigh_in_range (pose : Pose) :
    (-180 ≤ (applyLimbLimpness pose).rThigh ∧ (applyLimbLimpness pose).rThigh ≤ 180) ∧
    (-180 ≤ (applyLimbLimpness pose).lThigh ∧ (applyLimbLimpness pose).lThigh ≤ 180) := by
  have h := legCorrection_range (-(pose.rootRotation + pose.hips))
  exact ⟨h, h⟩

/-- Helper: interpolating at clamped parameter 0 returns the first value. -/
theorem lerp_zero_clamped (a b : ℝ) : lerp a b (max 0 (min 1 0)) = a := by
  norm_num [lerp]

/-- Helper: interpolating at clamped parameter 1 returns the second value. -/
theorem lerp_one_clamped (a b : ℝ) : lerp a b (max 0 (min 1 1)) = b := by
  norm_num [lerp]

/-- Helper: at `t = 0` the blend agrees with pose A on every field the
blender claim lists (offsets compared through their `{0,0}` fallback). -/
theorem interpolatePose_zero_same (poseA poseB : Pose) :
    samePose (interpolatePose poseA poseB 0) poseA := by
  refine ⟨?_, ?_, ?_, ?_, ?_, ?_, ?_, ?_, ?_, ?_, ?_, ?_, ?_, ?_, ?_, ?_, ?_, ?_,
    ?_, ?_, ?_, ?_⟩ <;>
    simp only [interpolatePose, lerp_zero_clamped]
  intro k
  simp only [offsetGet]
  cases hA : poseA.offsets k <;> cases hB : poseB.offsets k <;>
    simp only [hA, hB, offsetGet, lerp_zero_clamped]

/-- Helper: at `t = 1` the blend agrees with pose B in the same sense. -/
theorem interpolatePose_one_same (poseA poseB : Pose) :
    samePose (interpolatePose poseA poseB 1) poseB := by
  refine ⟨?_, ?_, ?_, ?_, ?_, ?_, ?_, ?_, ?_, ?_, ?_, ?_, ?_, ?_, ?_, ?_, ?_, ?_,
    ?_, ?_, ?_, ?_⟩ <;>
    simp only [interpolatePose, lerp_one_clamped]
  intro k
  simp only [offsetGet]
  cases hA : poseA.offsets k <;> cases hB : poseB.offsets k <;>
    simp only [hA, hB, offsetGet, lerp_one_clamped]

/-- C8 counterexample.  Exact full-value equality fails at `t = 0`: when B
has an offsets key that A lacks, the result's offsets map carries that key
(with value `{0,0}`) while A's map does not, so the interpolated pose is
not equal to A as a value. -/
theorem interpolatePose_zero_not_equal :
    interpolatePose DEFAULT_POSE
        { DEFAULT_POSE with
            offsets := fun k => if k = "hips" then some ⟨1, 1⟩ else none }
        0 ≠ DEFAULT_POSE := by
  intro h
  have h2 := congrArg (fun p : Pose => p.offsets "hips") h
  simp only [interpolatePose, DEFAULT_POSE] at h2
  exact Option.noConfusion h2

/-- C8 (amended).  `interpolate(A,B,0)` agrees with A, and
`interpolate(A,B,1)` agrees with B, on root, rootRotation, every scalar
rotation field, and on the offsets map read with its `{0,0}` default for
absent keys (the key set itself can grow to the union of both key sets, so
plain structural equality can fail; see the counterexample). -/
theorem interpolatePose_endpoints (poseA poseB : Pose) :
    samePose (interpolatePose poseA poseB 0) poseA ∧
    samePose (interpolatePose poseA poseB 1) poseB :=
  ⟨interpolatePose_zero_same poseA poseB, interpolatePose_one_same poseA poseB⟩

/-- Helper: a common shift distributes out of a four-way maximum. -/
theorem max4_shift (a b c d t : ℝ) :
    max (max (max (a + t) (b + t)) (c + t)) (d + t) = max (max (max a b) c) d + t := by
  rw [max_add_add_right, max_add_add_right, max_add_add_right]

/-- Helper: the contact-point maximum translates with the root Y. -/
theorem contactMaxY_root_shift (pose : Pose) (x y : ℝ) :
    contactMaxY { pose with root := ⟨x, y⟩ } =
      contactMaxY { pose with root := ⟨x, 0⟩ } + y := by
  have h1 : (getJointPositions { pose with root := ⟨x, y⟩ }).lFootTip.y =
      (getJointPositions { pose with root := ⟨x, 0⟩ }).lFootTip.y + y := by
    simp [getJointPositions, getLegJoints, addVec, rotateVec]
    ring
  have h2 : (getJointPositions { pose with root := ⟨x, y⟩ }).rFootTip.y =
      (getJointPositions { pose with root := ⟨x, 0⟩ }).rFootTip.y + y := by
    simp [getJointPositions, getLegJoints, addVec, rotateVec]
    ring
  have h3 : (getJointPositions { pose with root := ⟨x, y⟩ }).lAnkle.y =
      (getJointPositions { pose with root := ⟨x, 0⟩ }).lAnkle.y + y := by
    simp [getJointPositions, getLegJoints, addVec, rotateVec]
    ring
  have h4 : (getJointPositions { pose with root := ⟨x, y⟩ }).rAnkle.y =
      (getJointPositions { pose with root := ⟨x, 0⟩ }).rAnkle.y + y := by
    simp [getJointPositions, getLegJoints, addVec, rotateVec]
    ring
  simp only [contactMaxY]
  rw [h1, h2, h3, h4, max4_shift]

/-- Helper: the default pose's lowest contact point is exactly the floor
line value 467.5. -/
theorem contactMaxY_default : contactMaxY DEFAULT_POSE = 467.5 := by
  have hc0 : Real.cos (rad 0) = 1 := by
    rw [rad]
    norm_num
  have hs0 : Real.sin (rad 0) = 0 := by
    rw [rad]
    norm_num
  have hc90 : Real.cos (rad 90) = 0 := by
    rw [rad, show (90 : ℝ) * Real.pi / 180 = Real.pi / 2 by ring, Real.cos_pi_div_two]
  have hcm90 : Real.cos (rad (-90)) = 0 := by
    rw [rad, show (-90 : ℝ) * Real.pi / 180 = -(Real.pi / 2) by ring, Real.cos_neg,
      Real.cos_pi_div_two]
  simp only [contactMaxY, getJointPositions, getLegJoints, DEFAULT_POSE, addVec,
    rotateVec]
  norm_num [hc0, hs0, hc90, hcm90, ANATOMY.PELVIS, ANATOMY.LEG_UPPER,
    ANATOMY.LEG_LOWER, ANATOMY.FOOT, ANATOMY.HIP_WIDTH, HEAD_UNIT]

/-- Helper: with `sitMode = false` and `magnetism = 0` the grounding pass
reduces to the single hard floor correction, and the returned pose and the
caller's pose (as observed after the call, through the shared root) are the
same value. -/
theorem resolveM_floor_only (pose : Pose) (floorHeight : ℝ) :
    resolveFinalGroundingM pose floorHeight 0 false 0 =
      ({ pose with root := ⟨pose.root.x,
           if contactMaxY pose - floorHeight > 0
           then pose.root.y - (contactMaxY pose - floorHeight)
           else pose.root.y⟩ },
       { pose with root := ⟨pose.root.x,
           if contactMaxY pose - floorHeight > 0
           then pose.root.y - (contactMaxY pose - floorHeight)
           else pose.root.y⟩ }) := by
  have heta : ({ pose with root := ⟨pose.root.x, pose.root.y⟩ } : Pose) = pose := rfl
  simp only [resolveFinalGroundingM, Bool.false_eq_true, if_false, heta,
    lt_self_iff_false, gt_iff_lt, false_and, and_false, eq_self_iff_true, true_and]

/-- C7.  With magnetism 0 and sitMode off, a pose whose lowest contact
point sits exactly 10px below the floor is corrected by exactly 10px on
`root.y` (and nothing else), and running the resolver again on the
corrected pose changes nothing. -/
theorem resolveGrounding_exact_penetration (pose : Pose) (floorHeight : ℝ)
    (h : contactMaxY pose = floorHeight + 10) :
    resolveFinalGrounding pose floorHeight 0 false 0 =
      { pose with root := ⟨pose.root.x, pose.root.y - 10⟩ } ∧
    resolveFinalGrounding { pose with root := ⟨pose.root.x, pose.root.y - 10⟩ }
        floorHeight 0 false 0 =
      { pose with root := ⟨pose.root.x, pose.root.y - 10⟩ } := by
  have hpen : contactMaxY pose - floorHeight = 10 := by rw [h]; ring
  have hshift1 := contactMaxY_root_shift pose pose.root.x (pose.root.y - 10)
  have hshift2 := contactMaxY_root_shift pose pose.root.x pose.root.y
  have heta : ({ pose with root := ⟨pose.root.x, pose.root.y⟩ } : Pose) = pose := rfl
  rw [heta] at hshift2
  have hc2 : contactMaxY { pose with root := ⟨pose.root.x, pose.root.y - 10⟩ } =
      floorHeight := by
    rw [hshift1]
    linarith [hshift2, h]
  constructor
  · simp only [resolveFinalGrounding, resolveM_floor_only, hpen]
    norm_num
  · simp only [resolveFinalGrounding, resolveM_floor_only, hc2]
    norm_num

/-- Witness for C7: the default pose over a floor at 457.5 penetrates by
exactly 10px, and the resolver lifts it by exactly 10px, idempotently. -/
theorem resolveGrounding_exact_penetration_witness :
    contactMaxY DEFAULT_POSE = 457.5 + 10 ∧
    (resolveFinalGrounding DEFAULT_POSE 457.5 0 false 0 =
        { DEFAULT_POSE with
            root := ⟨DEFAULT_POSE.root.x, DEFAULT_POSE.root.y - 10⟩ } ∧
     resolveFinalGrounding
        { DEFAULT_POSE with
            root := ⟨DEFAULT_POSE.root.x, DEFAULT_POSE.root.y - 10⟩ }
        457.5 0 false 0 =
        { DEFAULT_POSE with
            root := ⟨DEFAULT_POSE.root.x, DEFAULT_POSE.root.y - 10⟩ }) := by
  have h : contactMaxY DEFAULT_POSE = 457.5 + 10 := by
    rw [contactMaxY_default]
    norm_num
  exact ⟨h, resolveGrounding_exact_penetration DEFAULT_POSE 457.5 h⟩

/-- C5.  `resolveFinalGrounding` is not side-effect-free on its input: the
shallow copy `{ ...pose }` shares the `root` object with the caller's pose,
so the in-place `finalPose.root.y -= penetration` also mutates the input.
On the default pose lowered by 10px over the standard floor, the caller's
pose ends the call with `root.y = 0` instead of the original 10. -/
theorem resolveFinalGrounding_mutates_input :
    ((resolveFinalGroundingM { DEFAULT_POSE with root := ⟨0, 10⟩ }
        FLOOR_HEIGHT 0 false 0).2).root.y ≠
      ({ DEFAULT_POSE with root := ⟨0, 10⟩ } : Pose).root.y := by
  have hshift := contactMaxY_root_shift DEFAULT_POSE 0 10
  have heta0 : ({ DEFAULT_POSE with root := ⟨0, 0⟩ } : Pose) = DEFAULT_POSE := rfl
  rw [heta0, contactMaxY_default] at hshift
  rw [resolveM_floor_only]
  simp only [hshift, FLOOR_HEIGHT]
  norm_num

/-- Helper: a JS division is NaN only when numerator and denominator both
vanish. -/
theorem jsDiv_not_nan (num den : ℝ) (h : ¬(den = 0 ∧ num = 0)) :
    jsDiv num den ≠ JSVal.nan := by
  rw [jsDiv]
  split_ifs with h1 h2 h3 <;> simp_all

/-- Helper: clamping to `[-1,1]` and taking `Math.acos` yields a finite
value on every non-NaN input, including ±Infinity. -/
theorem clamp_acos_fin (v : JSVal) (hv : v ≠ JSVal.nan) :
    ∃ x, jsAcos (jsMax (-1) (jsMin 1 v)) = JSVal.val x := by
  cases v with
  | val x =>
      refine ⟨Real.arccos (max (-1) (min 1 x)), ?_⟩
      simp only [jsMin, jsMax, jsAcos]
      rw [if_pos]
      exact ⟨le_max_left _ _, max_le (by norm_num) (min_le_left _ _)⟩
  | posInf =>
      refine ⟨Real.arccos (max (-1) 1), ?_⟩
      simp only [jsMin, jsMax, jsAcos]
      rw [if_pos]
      exact ⟨le_max_left _ _, max_le (by norm_num) (by norm_num)⟩
  | negInf =>
      refine ⟨Real.arccos (-1), ?_⟩
      simp only [jsMin, jsMax, jsAcos]
      rw [if_pos]
      exact ⟨le_refl _, by norm_num⟩
  | nan => exact absurd rfl hv

/-- Helper: dividing a finite JS value by π stays finite. -/
theorem jsDivR_pi (u : ℝ) :
    jsDivR (JSVal.val u) Real.pi = JSVal.val (u / Real.pi) := by
  simp [jsDivR, jsDiv, Real.pi_ne_zero]

/-- C6 counterexample.  With the target exactly at the origin and equal
bone lengths, the first law-of-cosines division is `0/0 = NaN`; the `±1`
clamp does not catch NaN, so the solver's thigh output is NaN, not a
finite angle. -/
theorem solveTwoBoneIKF_nan_at_origin_target :
    (solveTwoBoneIKF 0 0 ⟨0, 0⟩ ⟨0, 0⟩ 1 1 1 100).1.isFin = false := by
  have hd : ikDist ⟨0, 0⟩ ⟨0, 0⟩ = 0 := by
    rw [ikDist]
    norm_num [Real.sqrt_zero]
  have hr : ikReach ⟨0, 0⟩ ⟨0, 0⟩ 1 1 100 = 0 := by
    simp only [ikReach, hd]
    rw [min_eq_left]
    positivity
  simp only [solveTwoBoneIKF, hr]
  rw [show (1 * 1 + (0 : ℝ) * 0 - 1 * 1) = 0 by norm_num,
    show (2 * (1 : ℝ) * 0) = 0 by norm_num]
  simp [jsDiv, jsMin, jsMax, jsAcos, jsMulR, jsSubL, jsSubR, jsDivR, JSVal.isFin]

/-- C6 (amended).  The solver never raises and returns finite thigh and
calf angles for every input and bend direction, except when one of the two
law-of-cosines divisions is an IEEE `0/0`: as long as neither
`2·L1·clampedDist` and its numerator, nor `2·L1·L2` and its numerator,
vanish together, both returned angles are finite (a `x/0 = ±Infinity` is
recovered by the clamp; only NaN survives it). -/
theorem solveTwoBoneIKF_finite (rootRot hipsRot : ℝ) (hipPos targetAnkle : Vec2)
    (L1 L2 b tension : ℝ)
    (h1 : ¬(2 * L1 * ikReach hipPos targetAnkle L1 L2 tension = 0 ∧
        L1 * L1 + ikReach hipPos targetAnkle L1 L2 tension *
          ikReach hipPos targetAnkle L1 L2 tension - L2 * L2 = 0))
    (h2 : ¬(2 * L1 * L2 = 0 ∧
        L1 * L1 + L2 * L2 - ikReach hipPos targetAnkle L1 L2 tension *
          ikReach hipPos targetAnkle L1 L2 tension = 0)) :
    (solveTwoBoneIKF rootRot hipsRot hipPos targetAnkle L1 L2 b tension).1.isFin
      = true ∧
    (solveTwoBoneIKF rootRot hipsRot hipPos targetAnkle L1 L2 b tension).2.1.isFin
      = true := by
  obtain ⟨a, ha⟩ := clamp_acos_fin _ (jsDiv_not_nan _ _ h1)
  obtain ⟨c, hc⟩ := clamp_acos_fin _ (jsDiv_not_nan _ _ h2)
  simp only [solveTwoBoneIKF, ha, hc, jsMulR, jsSubL, jsSubR, jsDivR_pi,
    JSVal.isFin]
  exact ⟨trivial, trivial⟩

/-- Witness for C6: a reachable target with unit bones satisfies both
non-degeneracy hypotheses and yields finite angles. -/
theorem solveTwoBoneIKF_finite_witness :
    ¬(2 * 1 * ikReach ⟨0, 0⟩ ⟨0, 1⟩ 1 1 100 = 0 ∧
        1 * 1 + ikReach ⟨0, 0⟩ ⟨0, 1⟩ 1 1 100 *
          ikReach ⟨0, 0⟩ ⟨0, 1⟩ 1 1 100 - 1 * 1 = 0) ∧
    ¬((2 : ℝ) * 1 * 1 = 0 ∧
        1 * 1 + 1 * 1 - ikReach ⟨0, 0⟩ ⟨0, 1⟩ 1 1 100 *
          ikReach ⟨0, 0⟩ ⟨0, 1⟩ 1 1 100 = 0) ∧
    ((solveTwoBoneIKF 0 0 ⟨0, 0⟩ ⟨0, 1⟩ 1 1 1 100).1.isFin = true ∧
     (solveTwoBoneIKF 0 0 ⟨0, 0⟩ ⟨0, 1⟩ 1 1 1 100).2.1.isFin = true) := by
  have hd : ikDist ⟨0, 0⟩ ⟨0, 1⟩ = 1 := by
    rw [ikDist]
    norm_num [Real.sqrt_one]
  have hr : ikReach ⟨0, 0⟩ ⟨0, 1⟩ 1 1 100 = 1 := by
    simp only [ikReach, hd]
    rw [min_eq_left]
    nlinarith [le_max_right ((100 - (100 : ℝ)) / 100 * 0.1) 0.05,
      le_max_left ((100 - (100 : ℝ)) / 100 * 0.1) 0.05]
  have hA : ¬(2 * 1 * ikReach ⟨0, 0⟩ ⟨0, 1⟩ 1 1 100 = 0 ∧
      1 * 1 + ikReach ⟨0, 0⟩ ⟨0, 1⟩ 1 1 100 *
        ikReach ⟨0, 0⟩ ⟨0, 1⟩ 1 1 100 - 1 * 1 = 0) := by
    rw [hr]
    norm_num
  have hB : ¬((2 : ℝ) * 1 * 1 = 0 ∧
      1 * 1 + 1 * 1 - ikReach ⟨0, 0⟩ ⟨0, 1⟩ 1 1 100 *
        ikReach ⟨0, 0⟩ ⟨0, 1⟩ 1 1 100 = 0) := by
    rw [hr]
    norm_num
  exact ⟨hA, hB, solveTwoBoneIKF_finite 0 0 ⟨0, 0⟩ ⟨0, 1⟩ 1 1 1 100 hA hB⟩

/-- Helper: the leg chain driven by a thigh of `t` radians (written back in
degrees with the ancestor angles subtracted, as the solver does) and a calf
of `c` radians lands at the rotated two-segment endpoint. -/
theorem legForward_of_rad (rootRot hipsRot : ℝ) (hip : Vec2) (t c L1 L2 : ℝ) :
    legForward rootRot hipsRot hip (t * 180 / Real.pi - rootRot - hipsRot)
        (c * 180 / Real.pi) L1 L2 =
      ⟨hip.x - L1 * Real.sin t - L2 * Real.sin (t + c),
       hip.y + L1 * Real.cos t + L2 * Real.cos (t + c)⟩ := by
  have e1 : rad (rootRot + hipsRot + (t * 180 / Real.pi - rootRot - hipsRot)) = t := by
    rw [rad]
    field_simp
    ring
  have e2 : rad (rootRot + hipsRot + (t * 180 / Real.pi - rootRot - hipsRot) +
      c * 180 / Real.pi) = t + c := by
    rw [rad]
    field_simp
    ring
  simp only [legForward, addVec, rotateVec, e1, e2]
  simp only [Vec2.mk.injEq]
  constructor <;> ring

/-- C3 (amended).  At tension 100 with positive bones and a target whose
distance from the origin lies in `[|L1-L2|, L1+L2]` (positive), the angles
returned by the solver, fed through the forward leg chain, land exactly on
the target, and the reported stretch is 0.  (The claim as stated omits the
lower bound `|L1-L2| ≤ dist`; see the counterexample below.) -/
theorem solveTwoBoneIK_reaches_target (rootRot hipsRot : ℝ)
    (hipPos targetAnkle : Vec2) (L1 L2 b : ℝ)
    (hL1 : 0 < L1) (hL2 : 0 < L2) (hb : b = 1 ∨ b = -1)
    (hdpos : 0 < ikDist hipPos targetAnkle)
    (hdlo : |L1 - L2| ≤ ikDist hipPos targetAnkle)
    (hdhi : ikDist hipPos targetAnkle ≤ L1 + L2) :
    legForward rootRot hipsRot hipPos
        (solveTwoBoneIK rootRot hipsRot hipPos targetAnkle L1 L2 b 100).thigh
        (solveTwoBoneIK rootRot hipsRot hipPos targetAnkle L1 L2 b 100).calf
        L1 L2 = targetAnkle ∧
    (solveTwoBoneIK rootRot hipsRot hipPos targetAnkle L1 L2 b 100).stretch = 0 := by
  set d := ikDist hipPos targetAnkle with hdd
  have hbb : b * b = 1 := by rcases hb with rfl | rfl <;> norm_num
  have hdne : d ≠ 0 := ne_of_gt hdpos
  have hL1ne : L1 ≠ 0 := ne_of_gt hL1
  have hL2ne : L2 ≠ 0 := ne_of_gt hL2
  have habs1 : L1 - L2 ≤ d := (abs_le.mp hdlo).2
  have habs2 : -d ≤ L1 - L2 := (abs_le.mp hdlo).1
  have hreach : ikReach hipPos targetAnkle L1 L2 100 = d := by
    simp only [ikReach]
    rw [← hdd]
    refine min_eq_left ?_
    have h05 : (0.05 : ℝ) ≤ max ((100 - 100) / 100 * 0.1 : ℝ) 0.05 := le_max_right _ _
    nlinarith [mul_nonneg (by linarith : (0 : ℝ) ≤ L1 + L2)
      (by linarith : (0 : ℝ) ≤ max ((100 - 100) / 100 * 0.1 : ℝ) 0.05)]
  have hca_le : (L1 * L1 + d * d - L2 * L2) / (2 * L1 * d) ≤ 1 := by
    rw [div_le_one (by positivity)]
    nlinarith [mul_nonneg (by linarith : (0 : ℝ) ≤ L2 - (L1 - d))
      (by linarith : (0 : ℝ) ≤ L2 + (L1 - d))]
  have hca_ge : -1 ≤ (L1 * L1 + d * d - L2 * L2) / (2 * L1 * d) := by
    rw [le_div_iff₀ (by positivity)]
    nlinarith [mul_nonneg (by linarith : (0 : ℝ) ≤ L1 + d - L2)
      (by linarith : (0 : ℝ) ≤ L1 + d + L2)]
  have hcc_le : (L1 * L1 + L2 * L2 - d * d) / (2 * L1 * L2) ≤ 1 := by
    rw [div_le_one (by positivity)]
    nlinarith [mul_nonneg (by linarith : (0 : ℝ) ≤ d - (L1 - L2))
      (by linarith : (0 : ℝ) ≤ d + (L1 - L2))]
  have hcc_ge : -1 ≤ (L1 * L1 + L2 * L2 - d * d) / (2 * L1 * L2) := by
    rw [le_div_iff₀ (by positivity)]
    nlinarith [mul_nonneg (by linarith : (0 : ℝ) ≤ L1 + L2 - d)
      (by linarith : (0 : ℝ) ≤ L1 + L2 + d)]
  have hclampa : max (-1) (min 1 ((L1 * L1 + d * d - L2 * L2) / (2 * L1 * d))) =
      (L1 * L1 + d * d - L2 * L2) / (2 * L1 * d) := by
    rw [min_eq_right hca_le, max_eq_right hca_ge]
  have hclampc : max (-1) (min 1 ((L1 * L1 + L2 * L2 - d * d) / (2 * L1 * L2))) =
      (L1 * L1 + L2 * L2 - d * d) / (2 * L1 * L2) := by
    rw [min_eq_right hcc_le, max_eq_right hcc_ge]
  have hsa2 : Real.sqrt (1 - ((L1 * L1 + d * d - L2 * L2) / (2 * L1 * d)) ^ 2) ^ 2 =
      1 - ((L1 * L1 + d * d - L2 * L2) / (2 * L1 * d)) ^ 2 :=
    Real.sq_sqrt (by nlinarith [hca_le, hca_ge])
  have hsc2 : Real.sqrt (1 - ((L1 * L1 + L2 * L2 - d * d) / (2 * L1 * L2)) ^ 2) ^ 2 =
      1 - ((L1 * L1 + L2 * L2 - d * d) / (2 * L1 * L2)) ^ 2 :=
    Real.sq_sqrt (by nlinarith [hcc_le, hcc_ge])
  have hF1 : L1 - L2 * ((L1 * L1 + L2 * L2 - d * d) / (2 * L1 * L2)) =
      d * ((L1 * L1 + d * d - L2 * L2) / (2 * L1 * d)) := by
    field_simp
    ring
  have hsq : d ^ 2 * (1 - ((L1 * L1 + d * d - L2 * L2) / (2 * L1 * d)) ^ 2) =
      L2 ^ 2 * (1 - ((L1 * L1 + L2 * L2 - d * d) / (2 * L1 * L2)) ^ 2) := by
    field_simp
    ring
  have hsqrtL2 : ∀ u : ℝ, Real.sqrt (L2 ^ 2 * u) = L2 * Real.sqrt u := fun u => by
    rw [Real.sqrt_mul (sq_nonneg L2) u, Real.sqrt_sq hL2.le]
  have hsqrtd : ∀ u : ℝ, Real.sqrt (d ^ 2 * u) = d * Real.sqrt u := fun u => by
    rw [Real.sqrt_mul (sq_nonneg d) u, Real.sqrt_sq hdpos.le]
  have hF2 : L2 * Real.sqrt (1 - ((L1 * L1 + L2 * L2 - d * d) / (2 * L1 * L2)) ^ 2) =
      d * Real.sqrt (1 - ((L1 * L1 + d * d - L2 * L2) / (2 * L1 * d)) ^ 2) := by
    rw [← hsqrtL2, ← hsqrtd, hsq]
  have hc' : L1 * ((L1 * L1 + d * d - L2 * L2) / (2 * L1 * d)) -
      L2 * (((L1 * L1 + d * d - L2 * L2) / (2 * L1 * d)) *
            ((L1 * L1 + L2 * L2 - d * d) / (2 * L1 * L2)) -
          Real.sqrt (1 - ((L1 * L1 + d * d - L2 * L2) / (2 * L1 * d)) ^ 2) *
            Real.sqrt (1 - ((L1 * L1 + L2 * L2 - d * d) / (2 * L1 * L2)) ^ 2)) = d := by
    linear_combination ((L1 * L1 + d * d - L2 * L2) / (2 * L1 * d)) * hF1 +
      Real.sqrt (1 - ((L1 * L1 + d * d - L2 * L2) / (2 * L1 * d)) ^ 2) * hF2 + d * hsa2
  have hs' : L1 * Real.sqrt (1 - ((L1 * L1 + d * d - L2 * L2) / (2 * L1 * d)) ^ 2) -
      L2 * (Real.sqrt (1 - ((L1 * L1 + d * d - L2 * L2) / (2 * L1 * d)) ^ 2) *
            ((L1 * L1 + L2 * L2 - d * d) / (2 * L1 * L2)) +
          ((L1 * L1 + d * d - L2 * L2) / (2 * L1 * d)) *
            Real.sqrt (1 - ((L1 * L1 + L2 * L2 - d * d) / (2 * L1 * L2)) ^ 2)) = 0 := by
    linear_combination Real.sqrt (1 - ((L1 * L1 + d * d - L2 * L2) / (2 * L1 * d)) ^ 2) *
      hF1 - ((L1 * L1 + d * d - L2 * L2) / (2 * L1 * d)) * hF2
  have hdd2 : d = Real.sqrt ((targetAnkle.x - hipPos.x) * (targetAnkle.x - hipPos.x) +
      (targetAnkle.y - hipPos.y) * (targetAnkle.y - hipPos.y)) := by
    rw [hdd, ikDist]
  have hzne : (⟨targetAnkle.x - hipPos.x, targetAnkle.y - hipPos.y⟩ : ℂ) ≠ 0 := by
    intro hz
    have hre := congrArg Complex.re hz
    have him := congrArg Complex.im hz
    simp only [Complex.zero_re, Complex.zero_im] at hre him
    rw [hdd2, hre, him] at hdpos
    norm_num [Real.sqrt_zero] at hdpos
  have habsz : Complex.abs ⟨targetAnkle.x - hipPos.x, targetAnkle.y - hipPos.y⟩ = d := by
    rw [Complex.abs_apply, Complex.normSq_mk, hdd2]
  have hcosφ : Real.cos (atan2 (targetAnkle.y - hipPos.y) (targetAnkle.x - hipPos.x)) =
      (targetAnkle.x - hipPos.x) / d := by
    rw [atan2, Complex.cos_arg hzne, habsz]
  have hsinφ : Real.sin (atan2 (targetAnkle.y - hipPos.y) (targetAnkle.x - hipPos.x)) =
      (targetAnkle.y - hipPos.y) / d := by
    rw [atan2, Complex.sin_arg, habsz]
  have hdxe : targetAnkle.x - hipPos.x =
      d * Real.cos (atan2 (targetAnkle.y - hipPos.y) (targetAnkle.x - hipPos.x)) := by
    rw [hcosφ]
    field_simp
  have hdye : targetAnkle.y - hipPos.y =
      d * Real.sin (atan2 (targetAnkle.y - hipPos.y) (targetAnkle.x - hipPos.x)) := by
    rw [hsinφ]
    field_simp
  constructor
  · have hth : (solveTwoBoneIK rootRot hipsRot hipPos targetAnkle L1 L2 b 100).thigh =
        (atan2 (targetAnkle.y - hipPos.y) (targetAnkle.x - hipPos.x) - Real.pi / 2 -
            Real.arccos ((L1 * L1 + d * d - L2 * L2) / (2 * L1 * d)) * b) * 180 /
          Real.pi - rootRot - hipsRot := by
      simp only [solveTwoBoneIK, hreach, hclampa]
    have hcf : (solveTwoBoneIK rootRot hipsRot hipPos targetAnkle L1 L2 b 100).calf =
        ((Real.pi - Real.arccos ((L1 * L1 + L2 * L2 - d * d) / (2 * L1 * L2))) * b) *
          180 / Real.pi := by
      simp only [solveTwoBoneIK, hreach, hclampc]
    rw [hth, hcf, legForward_of_rad]
    have hcb : Real.cos (Real.arccos ((L1 * L1 + d * d - L2 * L2) / (2 * L1 * d)) * b) =
        (L1 * L1 + d * d - L2 * L2) / (2 * L1 * d) := by
      rcases hb with rfl | rfl
      · rw [mul_one, Real.cos_arccos hca_ge hca_le]
      · rw [mul_neg_one, Real.cos_neg, Real.cos_arccos hca_ge hca_le]
    have hsb : Real.sin (Real.arccos ((L1 * L1 + d * d - L2 * L2) / (2 * L1 * d)) * b) =
        b * Real.sqrt (1 - ((L1 * L1 + d * d - L2 * L2) / (2 * L1 * d)) ^ 2) := by
      rcases hb with rfl | rfl
      · rw [mul_one, Real.sin_arccos, one_mul]
      · rw [mul_neg_one, Real.sin_neg, Real.sin_arccos]
        ring
    have hcpb : Real.cos ((Real.pi -
        Real.arccos ((L1 * L1 + L2 * L2 - d * d) / (2 * L1 * L2))) * b) =
        -((L1 * L1 + L2 * L2 - d * d) / (2 * L1 * L2)) := by
      rcases hb with rfl | rfl
      · rw [mul_one, Real.cos_pi_sub, Real.cos_arccos hcc_ge hcc_le]
      · rw [mul_neg_one, Real.cos_neg, Real.cos_pi_sub, Real.cos_arccos hcc_ge hcc_le]
    have hspb : Real.sin ((Real.pi -
        Real.arccos ((L1 * L1 + L2 * L2 - d * d) / (2 * L1 * L2))) * b) =
        b * Real.sqrt (1 - ((L1 * L1 + L2 * L2 - d * d) / (2 * L1 * L2)) ^ 2) := by
      rcases hb with rfl | rfl
      · rw [mul_one, Real.sin_pi_sub, Real.sin_arccos, one_mul]
      · rw [mul_neg_one, Real.sin_neg, Real.sin_pi_sub, Real.sin_arccos]
        ring
    have hsin_t : Real.sin (atan2 (targetAnkle.y - hipPos.y) (targetAnkle.x - hipPos.x) -
        Real.pi / 2 - Real.arccos ((L1 * L1 + d * d - L2 * L2) / (2 * L1 * d)) * b) =
        -Real.cos (atan2 (targetAnkle.y - hipPos.y) (targetAnkle.x - hipPos.x)) *
            ((L1 * L1 + d * d - L2 * L2) / (2 * L1 * d)) -
          Real.sin (atan2 (targetAnkle.y - hipPos.y) (targetAnkle.x - hipPos.x)) *
            (b * Real.sqrt (1 - ((L1 * L1 + d * d - L2 * L2) / (2 * L1 * d)) ^ 2)) := by
      rw [Real.sin_sub, Real.sin_sub_pi_div_two, Real.cos_sub_pi_div_two, hcb, hsb]
    have hcos_t : Real.cos (atan2 (targetAnkle.y - hipPos.y) (targetAnkle.x - hipPos.x) -
        Real.pi / 2 - Real.arccos ((L1 * L1 + d * d - L2 * L2) / (2 * L1 * d)) * b) =
        Real.sin (atan2 (targetAnkle.y - hipPos.y) (targetAnkle.x - hipPos.x)) *
            ((L1 * L1 + d * d - L2 * L2) / (2 * L1 * d)) +
          -Real.cos (atan2 (targetAnkle.y - hipPos.y) (targetAnkle.x - hipPos.x)) *
            (b * Real.sqrt (1 - ((L1 * L1 + d * d - L2 * L2) / (2 * L1 * d)) ^ 2)) := by
      rw [Real.cos_sub, Real.sin_sub_pi_div_two, Real.cos_sub_pi_div_two, hcb, hsb]
    have hsin_tc : Real.sin (atan2 (targetAnkle.y - hipPos.y) (targetAnkle.x - hipPos.x) -
        Real.pi / 2 - Real.arccos ((L1 * L1 + d * d - L2 * L2) / (2 * L1 * d)) * b +
        (Real.pi - Real.arccos ((L1 * L1 + L2 * L2 - d * d) / (2 * L1 * L2))) * b) =
        Real.sin (atan2 (targetAnkle.y - hipPos.y) (targetAnkle.x - hipPos.x) -
            Real.pi / 2 -
            Real.arccos ((L1 * L1 + d * d - L2 * L2) / (2 * L1 * d)) * b) *
          -((L1 * L1 + L2 * L2 - d * d) / (2 * L1 * L2)) +
        Real.cos (atan2 (targetAnkle.y - hipPos.y) (targetAnkle.x - hipPos.x) -
            Real.pi / 2 -
            Real.arccos ((L1 * L1 + d * d - L2 * L2) / (2 * L1 * d)) * b) *
          (b * Real.sqrt (1 - ((L1 * L1 + L2 * L2 - d * d) / (2 * L1 * L2)) ^ 2)) := by
      rw [Real.sin_add, hcpb, hspb]
    have hcos_tc : Real.cos (atan2 (targetAnkle.y - hipPos.y) (targetAnkle.x - hipPos.x) -
        Real.pi / 2 - Real.arccos ((L1 * L1 + d * d - L2 * L2) / (2 * L1 * d)) * b +
        (Real.pi - Real.arccos ((L1 * L1 + L2 * L2 - d * d) / (2 * L1 * L2))) * b) =
        Real.cos (atan2 (targetAnkle.y - hipPos.y) (targetAnkle.x - hipPos.x) -
            Real.pi / 2 -
            Real.arccos ((L1 * L1 + d * d - L2 * L2) / (2 * L1 * d)) * b) *
          -((L1 * L1 + L2 * L2 - d * d) / (2 * L1 * L2)) -
        Real.sin (atan2 (targetAnkle.y - hipPos.y) (targetAnkle.x - hipPos.x) -
            Real.pi / 2 -
            Real.arccos ((L1 * L1 + d * d - L2 * L2) / (2 * L1 * d)) * b) *
          (b * Real.sqrt (1 - ((L1 * L1 + L2 * L2 - d * d) / (2 * L1 * L2)) ^ 2)) := by
      rw [Real.cos_add, hcpb, hspb]
    rw [show targetAnkle = (⟨targetAnkle.x, targetAnkle.y⟩ : Vec2) from rfl]
    simp only [Vec2.mk.injEq]
    constructor
    · rw [hsin_tc, hsin_t, hcos_t]
      linear_combination
        (Real.cos (atan2 (targetAnkle.y - hipPos.y) (targetAnkle.x - hipPos.x))) * hc' +
        b * (Real.sin (atan2 (targetAnkle.y - hipPos.y) (targetAnkle.x - hipPos.x))) * hs' +
        (L2 * Real.cos (atan2 (targetAnkle.y - hipPos.y) (targetAnkle.x - hipPos.x)) *
          Real.sqrt (1 - ((L1 * L1 + d * d - L2 * L2) / (2 * L1 * d)) ^ 2) *
          Real.sqrt (1 - ((L1 * L1 + L2 * L2 - d * d) / (2 * L1 * L2)) ^ 2)) * hbb -
        hdxe
    · rw [hcos_tc, hsin_t, hcos_t]
      linear_combination
        (Real.sin (atan2 (targetAnkle.y - hipPos.y) (targetAnkle.x - hipPos.x))) * hc' -
        b * (Real.cos (atan2 (targetAnkle.y - hipPos.y) (targetAnkle.x - hipPos.x))) * hs' +
        (L2 * Real.sin (atan2 (targetAnkle.y - hipPos.y) (targetAnkle.x - hipPos.x)) *
          Real.sqrt (1 - ((L1 * L1 + d * d - L2 * L2) / (2 * L1 * d)) ^ 2) *
          Real.sqrt (1 - ((L1 * L1 + L2 * L2 - d * d) / (2 * L1 * L2)) ^ 2)) * hbb -
        hdye
  · simp only [solveTwoBoneIK]
    rw [← hdd, if_neg (not_lt.mpr hdhi)]

/-- C3 counterexample.  The claim as stated (no lower bound on the target
distance) fails: with `L1 = 2`, `L2 = 1`, tension 100 and a target at
distance 1/2 < |L1 - L2| from the origin, the solver's angles put the
ankle at `(0, 1)` — a full 1/2 px from the target `(0, 1/2)`, far beyond
the 1e-3 tolerance — because both clamped cosines saturate at 1. -/
theorem solveTwoBoneIK_claim_false_short_target :
    ((0 : ℝ) < 2 ∧ (0 : ℝ) < 1 ∧ 0 < ikDist ⟨0, 0⟩ ⟨0, 1/2⟩ ∧
      ikDist ⟨0, 0⟩ ⟨0, 1/2⟩ ≤ 2 + 1) ∧
    legForward 0 0 ⟨0, 0⟩
        (solveTwoBoneIK 0 0 ⟨0, 0⟩ ⟨0, 1/2⟩ 2 1 1 100).thigh
        (solveTwoBoneIK 0 0 ⟨0, 0⟩ ⟨0, 1/2⟩ 2 1 1 100).calf 2 1 = ⟨0, 1⟩ ∧
    ikDist ⟨0, 1⟩ ⟨0, 1/2⟩ = 1/2 ∧ ¬((1 : ℝ)/2 ≤ 1/1000) := by
  have hd : ikDist ⟨0, 0⟩ ⟨0, 1/2⟩ = 1/2 := by
    simp only [ikDist]
    rw [show ((0 - 0 : ℝ) * (0 - 0) + (1/2 - 0) * (1/2 - 0)) = (1/2) ^ 2 by norm_num,
      Real.sqrt_sq (by norm_num : (0 : ℝ) ≤ 1/2)]
  have hr : ikReach ⟨0, 0⟩ ⟨0, 1/2⟩ 2 1 100 = 1/2 := by
    simp only [ikReach, hd]
    refine min_eq_left ?_
    have h05 : (0.05 : ℝ) ≤ max ((100 - 100) / 100 * 0.1 : ℝ) 0.05 := le_max_right _ _
    nlinarith
  have harg : Complex.arg ⟨0, 1/2⟩ = Real.pi / 2 :=
    Complex.arg_eq_pi_div_two_iff.mpr ⟨rfl, by norm_num⟩
  have hφ : atan2 ((1 : ℝ)/2 - 0) ((0 : ℝ) - 0) = Real.pi / 2 := by
    rw [atan2, show ((1 : ℝ)/2 - 0) = 1/2 by norm_num, show ((0 : ℝ) - 0) = 0 by norm_num,
      harg]
  have hca : ((2 : ℝ) * 2 + 1/2 * (1/2) - 1 * 1) / (2 * 2 * (1/2)) = 13/8 := by
    norm_num
  have hcc : ((2 : ℝ) * 2 + 1 * 1 - 1/2 * (1/2)) / (2 * 2 * 1) = 19/16 := by
    norm_num
  have hth : (solveTwoBoneIK 0 0 ⟨0, 0⟩ ⟨0, 1/2⟩ 2 1 1 100).thigh = 0 := by
    simp only [solveTwoBoneIK, hr, hφ, hca]
    rw [min_eq_left (by norm_num : (1 : ℝ) ≤ 13/8),
      max_eq_right (by norm_num : (-1 : ℝ) ≤ 1), Real.arccos_one]
    ring
  have hcf : (solveTwoBoneIK 0 0 ⟨0, 0⟩ ⟨0, 1/2⟩ 2 1 1 100).calf = 180 := by
    simp only [solveTwoBoneIK, hr, hcc]
    rw [min_eq_left (by norm_num : (1 : ℝ) ≤ 19/16),
      max_eq_right (by norm_num : (-1 : ℝ) ≤ 1), Real.arccos_one]
    field_simp
  have hlf : legForward 0 0 ⟨0, 0⟩ 0 180 2 1 = (⟨0, 1⟩ : Vec2) := by
    simp only [legForward, addVec, rotateVec, rad]
    rw [show ((0 : ℝ) + 0 + 0) * Real.pi / 180 = 0 by ring,
      show ((0 : ℝ) + 0 + 0 + 180) * Real.pi / 180 = Real.pi by ring]
    simp only [Real.cos_zero, Real.sin_zero, Real.cos_pi, Real.sin_pi, Vec2.mk.injEq]
    norm_num
  have hd2 : ikDist ⟨0, 1⟩ ⟨0, 1/2⟩ = 1/2 := by
    simp only [ikDist]
    rw [show ((0 - 0 : ℝ) * (0 - 0) + (1/2 - 1) * (1/2 - 1)) = (1/2) ^ 2 by norm_num,
      Real.sqrt_sq (by norm_num : (0 : ℝ) ≤ 1/2)]
  refine ⟨⟨by norm_num, by norm_num, ?_, ?_⟩, ?_, hd2, by norm_num⟩
  · rw [hd]
    norm_num
  · rw [hd]
    norm_num
  · rw [hth, hcf]
    exact hlf

/-- Witness for C3 (amended): unit bones reaching straight down to a target
at full extension satisfy every hypothesis, and the solve round-trips. -/
theorem solveTwoBoneIK_reaches_target_witness :
    ((0 : ℝ) < 1 ∧ ((1 : ℝ) = 1 ∨ (1 : ℝ) = -1) ∧ 0 < ikDist ⟨0, 0⟩ ⟨0, 2⟩ ∧
      |(1 : ℝ) - 1| ≤ ikDist ⟨0, 0⟩ ⟨0, 2⟩ ∧ ikDist ⟨0, 0⟩ ⟨0, 2⟩ ≤ 1 + 1) ∧
    (legForward 0 0 ⟨0, 0⟩
        (solveTwoBoneIK 0 0 ⟨0, 0⟩ ⟨0, 2⟩ 1 1 1 100).thigh
        (solveTwoBoneIK 0 0 ⟨0, 0⟩ ⟨0, 2⟩ 1 1 1 100).calf 1 1 = ⟨0, 2⟩ ∧
     (solveTwoBoneIK 0 0 ⟨0, 0⟩ ⟨0, 2⟩ 1 1 1 100).stretch = 0) := by
  have hd : ikDist ⟨0, 0⟩ ⟨0, 2⟩ = 2 := by
    simp only [ikDist]
    rw [show ((0 - 0 : ℝ) * (0 - 0) + (2 - 0) * (2 - 0)) = 2 ^ 2 by norm_num,
      Real.sqrt_sq (by norm_num : (0 : ℝ) ≤ 2)]
  have h1 : (0 : ℝ) < ikDist ⟨0, 0⟩ ⟨0, 2⟩ := by rw [hd]; norm_num
  have h2 : |(1 : ℝ) - 1| ≤ ikDist ⟨0, 0⟩ ⟨0, 2⟩ := by rw [hd]; norm_num
  have h3 : ikDist ⟨0, 0⟩ ⟨0, 2⟩ ≤ 1 + 1 := by rw [hd]; norm_num
  exact ⟨⟨by norm_num, Or.inl rfl, h1, h2, h3⟩,
    solveTwoBoneIK_reaches_target 0 0 ⟨0, 0⟩ ⟨0, 2⟩ 1 1 1 (by norm_num) (by norm_num)
      (Or.inl rfl) h1 h2 h3⟩

/-- C2.  On the default T-pose both ankle joints land exactly on the floor
line: their Y coordinate equals `FLOOR_HEIGHT = 467.5 = PELVIS + LEG_UPPER +
LEG_LOWER = 110 + 178.75 + 178.75`. -/
theorem default_tpose_ankles_on_floor :
    (getJointPositions DEFAULT_POSE).lAnkle.y = FLOOR_HEIGHT ∧
    (getJointPositions DEFAULT_POSE).rAnkle.y = FLOOR_HEIGHT := by
  simp only [getJointPositions, getLegJoints, DEFAULT_POSE, rotateVec, addVec, rad,
    ANATOMY.PELVIS, ANATOMY.LEG_UPPER, ANATOMY.LEG_LOWER, ANATOMY.HIP_WIDTH,
    HEAD_UNIT, FLOOR_HEIGHT]
  norm_num
